import Mathlib

/-!
Shallow embedding of the PIM HAL back-end (`iree/hal/drivers/vulkan`):
device buffers (`PIM_buffer.cc`), the device allocator (`PIM_allocator.cc`),
the executable container (`native_executable.cc`) and the direct command
buffer (`direct_command_buffer.cc`), together with theorems about their
recorded behaviour.  SDK entry points (`pim.h`) are abstract function
parameters; the arguments actually handed to them are returned as explicit
call records so that "calls the SDK with ..." is a provable statement.
-/

namespace PIMHal

/-- Conversion of an unsigned 64-bit value to a C `int` (32-bit two's
complement), as performed when `uint64_t PiM_code` is passed to the
`int op_type` parameter of `PIM_dispatch_code`. -/
def toInt32 (n : Nat) : Int :=
  let r : Nat := n % 2 ^ 32
  if r < 2 ^ 31 then (r : Int) else (r : Int) - 2 ^ 32

/-- The IREE status codes that appear in the modelled sources. -/
inductive Status where
  | ok
  | invalidArgument
  | failedPrecondition
  | unavailable
  | unimplemented
  | resourceExhausted
  | hostAllocFailure
deriving DecidableEq, Repr

/-! ## Device buffer (`PIM_buffer.cc`)

`iree_hal_vulkan_vma_buffer_t` holds the HAL bookkeeping handed to
`iree_hal_buffer_initialize` plus the PIM metadata `PIM_addr`,
`PIM_dim` and `PIM_rank`. -/

structure PimBuffer where
  memory_type : Nat
  allowed_access : Nat
  allowed_usage : Nat
  allocation_size : Nat
  byte_offset : Nat
  byte_length : Nat
  PIM_addr : Int
  PIM_dim : List Int
  PIM_rank : Int
deriving DecidableEq, Repr

/-- `iree_hal_PIM_buffer_wrap`: allocates the buffer struct on the host
(`mallocOk` records whether `iree_allocator_malloc` succeeds), fills it in on
success, and — exactly as the source does — returns `iree_ok_status()` on both
paths, leaving `*out_buffer` unwritten (`none`) when the malloc failed. -/
def iree_hal_PIM_buffer_wrap (mallocOk : Bool)
    (memory_type allowed_access allowed_usage : Nat)
    (allocation_size byte_offset byte_length : Nat)
    (PIM_addr : Int) (PIM_dim : List Int) (PIM_rank : Int) :
    Option PimBuffer × Status :=
  if mallocOk then
    (some { memory_type, allowed_access, allowed_usage,
            allocation_size, byte_offset, byte_length,
            PIM_addr, PIM_dim, PIM_rank }, Status.ok)
  else
    -- source: prints "PiM buffer alloc fail" and still returns iree_ok_status()
    (none, Status.ok)

def iree_hal_pim_buffer_get_PiM_addr (b : PimBuffer) : Int := b.PIM_addr

def iree_hal_pim_buffer_push_PiM_addr (b : PimBuffer) (new_PIM_addr : Int) :
    PimBuffer :=
  { b with PIM_addr := new_PIM_addr }

def iree_hal_pim_buffer_push_PiM_dim (b : PimBuffer) (new_PIM_dim : List Int) :
    PimBuffer :=
  { b with PIM_dim := new_PIM_dim }

def iree_hal_pim_buffer_get_PiM_dim (b : PimBuffer) : List Int := b.PIM_dim

/-! ## Device allocator (`PIM_allocator.cc`) -/

/-- Compatibility / memory-type / usage bits used by
`iree_hal_vulkan_vma_allocator_query_buffer_compatibility`
(bit positions from the upstream HAL headers). -/
def IREE_HAL_BUFFER_COMPATIBILITY_ALLOCATABLE : Nat := 1 <<< 0

def IREE_HAL_BUFFER_COMPATIBILITY_QUEUE_TRANSFER : Nat := 1 <<< 10

def IREE_HAL_BUFFER_COMPATIBILITY_QUEUE_DISPATCH : Nat := 1 <<< 11

def IREE_HAL_MEMORY_TYPE_OPTIMAL : Nat := 1 <<< 0

def IREE_HAL_MEMORY_TYPE_DEVICE_VISIBLE : Nat := 1 <<< 4

def IREE_HAL_BUFFER_USAGE_TRANSFER : Nat := (1 <<< 0) ||| (1 <<< 1)

def IREE_HAL_BUFFER_USAGE_DISPATCH_STORAGE : Nat := 1 <<< 7

/-- `iree_host_align(value, alignment)`: round `value` up to a multiple of
`alignment`. -/
def iree_host_align (value alignment : Nat) : Nat :=
  (value + alignment - 1) / alignment * alignment

/-- The request parameters consumed by the allocator
(`iree_hal_buffer_params_t` with the PIM tensor metadata fields). -/
structure BufferParams where
  type : Nat
  access : Nat
  usage : Nat
  tensor_shape : List Int
  tensor_rank : Nat
deriving DecidableEq, Repr

/-- `iree_hal_vulkan_vma_allocator_query_buffer_compatibility`: returns the
updated params (with the optimal bit cleared), the adjusted allocation size and
the compatibility bitmask. -/
def iree_hal_vulkan_vma_allocator_query_buffer_compatibility
    (params : BufferParams) (allocation_size : Nat) :
    BufferParams × Nat × Nat :=
  let compatibility := IREE_HAL_BUFFER_COMPATIBILITY_ALLOCATABLE
  let compatibility :=
    if params.usage &&& IREE_HAL_BUFFER_USAGE_TRANSFER ≠ 0 then
      compatibility ||| IREE_HAL_BUFFER_COMPATIBILITY_QUEUE_TRANSFER
    else compatibility
  let compatibility :=
    if params.type &&& IREE_HAL_MEMORY_TYPE_DEVICE_VISIBLE =
        IREE_HAL_MEMORY_TYPE_DEVICE_VISIBLE then
      if params.usage &&& IREE_HAL_BUFFER_USAGE_DISPATCH_STORAGE ≠ 0 then
        compatibility ||| IREE_HAL_BUFFER_COMPATIBILITY_QUEUE_DISPATCH
      else compatibility
    else compatibility
  let params' := { params with
    type := Nat.ldiff params.type IREE_HAL_MEMORY_TYPE_OPTIMAL }
  let allocation_size := if allocation_size = 0 then 4 else allocation_size
  let allocation_size := iree_host_align allocation_size 4
  (params', allocation_size, compatibility)

/-- Record of one `PIM_SDK_alloc_buffer(size, data)` call made by the
allocator. -/
structure AllocCall where
  element_count : Nat
  host_data : List Float

/-- `iree_hal_PIM_allocator_allocate_internal`: wraps the SDK handle into a
device buffer; propagates a non-ok wrap status without writing the output
pointer, otherwise publishes wrap's buffer. -/
def iree_hal_PIM_allocator_allocate_internal (mallocOk : Bool)
    (params : BufferParams) (allocation_size : Nat)
    (PiM_addr : Int) (PiM_dim : List Int) (PiM_rank : Int) :
    Option PimBuffer × Status :=
  let wrapped := iree_hal_PIM_buffer_wrap mallocOk
      params.type params.access params.usage
      allocation_size 0 allocation_size PiM_addr PiM_dim PiM_rank
  if wrapped.2 ≠ Status.ok then (none, wrapped.2)
  else (wrapped.1, wrapped.2)

/-- `iree_hal_PIM_allocator_allocate_buffer`: with non-empty initial data,
allocates an SDK tensor from the caller's floats and records the first
`tensor_rank` requested dimensions; with empty initial data, synthesizes a
zero-filled array of `allocation_size/4` floats and records the sentinel shape
`{0, 0, 0}`.  The `AllocCall` component records the arguments passed to
`PIM_SDK_alloc_buffer`. -/
def iree_hal_PIM_allocator_allocate_buffer
    (sdk_alloc : Nat → List Float → Int) (mallocOk : Bool)
    (params : BufferParams) (allocation_size : Nat)
    (initial_data : List Float) :
    AllocCall × Option PimBuffer × Status :=
  if !initial_data.isEmpty then
    let PiM_addr := sdk_alloc (allocation_size / 4) initial_data
    let PiM_dim := params.tensor_shape.take params.tensor_rank
    (⟨allocation_size / 4, initial_data⟩,
     iree_hal_PIM_allocator_allocate_internal mallocOk params allocation_size
       PiM_addr PiM_dim (params.tensor_rank : Int))
  else
    let tmp_data := List.replicate (allocation_size / 4) (0.0 : Float)
    let PiM_addr := sdk_alloc (allocation_size / 4) tmp_data
    let PiM_dim : List Int := [0, 0, 0]
    (⟨allocation_size / 4, tmp_data⟩,
     iree_hal_PIM_allocator_allocate_internal mallocOk params allocation_size
       PiM_addr PiM_dim (params.tensor_rank : Int))

/-! ## Executable container (`native_executable.cc`) -/

/-- The parsed `PIMExecutableDef` FlatBuffer root: the entry-point-name vector
and the uint64 code vector. -/
structure PIMExecutableDef where
  entry_points : List String
  code : List Nat
deriving DecidableEq, Repr

/-- A FlatBuffer byte container as seen by the verifier: whether the data
pointer is present, the byte length, the outcome of the flatcc generated
root verification (`iree_PIMExecutableDef_verify_as_root`, external generated
code), and the root table it parses to. -/
structure FlatbufferData where
  data_present : Bool
  data_length : Nat
  root_verify_ok : Bool
  root : PIMExecutableDef
deriving DecidableEq, Repr

/-- `iree_hal_pim_executable_flatbuffer_verify`: rejects absent or `< 16`-byte
data and flatcc verification failures with invalid-argument; rejects an
entry-point count that differs from the caller's expectation with
failed-precondition; rejects an empty entry-point name with invalid-argument;
the empty-code-vector rejection is commented out in the source, so an empty
code vector passes. -/
def iree_hal_pim_executable_flatbuffer_verify (fb : FlatbufferData)
    (expected_entry_point_count : Nat) : Status :=
  if !fb.data_present || fb.data_length < 16 then Status.invalidArgument
  else if !fb.root_verify_ok then Status.invalidArgument
  else if fb.root.entry_points.length ≠ expected_entry_point_count then
    Status.failedPrecondition
  else if fb.root.entry_points.any (fun s => s.length = 0) then
    Status.invalidArgument
  else Status.ok

/-- `iree_hal_vulkan_native_executable_t`: the decoded code vector; the
source's `cmd_stack_len` field is always set to the code vector's length at
creation, so it is exposed through `iree_hal_pim_executable_cmd_len` below. -/
structure NativeExecutable where
  code_vec : List Nat
deriving DecidableEq, Repr

/-- `iree_hal_vulkan_native_executable_create`: verifies the container and, on
success, builds the executable with `code_vec` and `cmd_stack_len` decoded
from the FlatBuffer (`mallocOk` records the host allocation of the executable
struct, whose failure is propagated). -/
def iree_hal_vulkan_native_executable_create (mallocOk : Bool)
    (fb : FlatbufferData) (pipeline_layout_count : Nat) :
    Option NativeExecutable × Status :=
  let verify := iree_hal_pim_executable_flatbuffer_verify fb
      pipeline_layout_count
  if verify ≠ Status.ok then (none, verify)
  else if mallocOk then (some ⟨fb.root.code⟩, Status.ok)
  else (none, Status.hostAllocFailure)

def iree_hal_pim_executable_cmd_get (e : NativeExecutable) : List Nat :=
  e.code_vec

def iree_hal_pim_executable_cmd_len (e : NativeExecutable) : Nat :=
  e.code_vec.length

/-! ## Direct command buffer (`direct_command_buffer.cc`)

Device buffers are reference-passed and mutated in place by dispatch, so the
buffer store is modelled as a heap indexed by buffer identity; command-buffer
operations thread the heap explicitly. -/

/-- The mutable store of device buffers, indexed by buffer identity. -/
def Heap : Type := Nat → PimBuffer

/-- In-place `iree_hal_pim_buffer_push_PiM_addr` on the buffer named `b`. -/
def heapPushAddr (h : Heap) (b : Nat) (a : Int) : Heap :=
  fun x => if x = b then iree_hal_pim_buffer_push_PiM_addr (h x) a else h x

/-- In-place `iree_hal_pim_buffer_push_PiM_dim` on the buffer named `b`. -/
def heapPushDim (h : Heap) (b : Nat) (d : List Int) : Heap :=
  fun x => if x = b then iree_hal_pim_buffer_push_PiM_dim (h x) d else h x

/-- The recording state of `iree_hal_vulkan_direct_command_buffer_t`: the
captured handle vector, shape vector, and the first/last bound buffers. -/
structure CmdBuf where
  buffer_addr_vec : List Int
  buffer_shape_vec : List (List Int)
  input_PIM_buffer : Nat
  result_PIM_buffer : Nat
deriving DecidableEq, Repr

/-- `iree_hal_vulkan_direct_command_buffer_push_descriptor_set`: reads
`bindings[0]` and `bindings[binding_count-1]` (out of bounds — hence `none` —
when the binding table is empty), then clears and rebuilds the handle and
shape vectors from the bindings in order. -/
def iree_hal_vulkan_direct_command_buffer_push_descriptor_set
    (heap : Heap) (cb : CmdBuf) (bindings : List Nat) : Option CmdBuf :=
  match bindings[0]?, bindings[bindings.length - 1]? with
  | some first, some last =>
      some { buffer_addr_vec :=
               bindings.map fun b => iree_hal_pim_buffer_get_PiM_addr (heap b),
             buffer_shape_vec :=
               bindings.map fun b => iree_hal_pim_buffer_get_PiM_dim (heap b),
             input_PIM_buffer := first,
             result_PIM_buffer := last }
  | _, _ => none

/-- Record of one `PIM_dispatch_code(addrs, op, shapes, out)` call. -/
structure DispatchCall where
  addr_vec : List Int
  op : Int
  shape_vec : List (List Int)
deriving DecidableEq, Repr

/-- Everything observable about one dispatch: the SDK call made (if any), the
command buffer, the buffer heap after the call, and the returned status. -/
structure DispatchOutcome where
  sdk_call : Option DispatchCall
  cmd : CmdBuf
  heap : Heap
  status : Status

/-- `iree_hal_vulkan_direct_command_buffer_dispatch`: skips everything when
`iree_hal_pim_executable_cmd_len` is 0; otherwise reads the first 64-bit word
of the code vector, passes it (converted to the SDK's `int` parameter) with
the captured vectors to `PIM_dispatch_code`, and pushes the returned handle
and output shape onto the result buffer. -/
def iree_hal_vulkan_direct_command_buffer_dispatch
    (sdk_dispatch : List Int → Int → List (List Int) → Int × List Int)
    (heap : Heap) (cb : CmdBuf) (executable : NativeExecutable) :
    DispatchOutcome :=
  let code_length := iree_hal_pim_executable_cmd_len executable
  if code_length = 0 then ⟨none, cb, heap, Status.ok⟩
  else
    let PiM_code := (iree_hal_pim_executable_cmd_get executable).headD 0
    let ret := sdk_dispatch cb.buffer_addr_vec (toInt32 PiM_code)
        cb.buffer_shape_vec
    let heap1 := heapPushAddr heap cb.result_PIM_buffer ret.1
    let heap2 := heapPushDim heap1 cb.result_PIM_buffer ret.2
    ⟨some ⟨cb.buffer_addr_vec, toInt32 PiM_code, cb.buffer_shape_vec⟩,
     cb, heap2, Status.ok⟩

/-! ## Helper lemmas -/

/-- Explicit form of a successful `push_descriptor_set`. -/
lemma push_descriptor_set_eq_some (heap : Heap) (cb : CmdBuf)
    (bindings : List Nat) (first last : Nat)
    (h0 : bindings[0]? = some first)
    (hl : bindings[bindings.length - 1]? = some last) :
    iree_hal_vulkan_direct_command_buffer_push_descriptor_set heap cb
      bindings =
      some { buffer_addr_vec :=
               bindings.map fun b => iree_hal_pim_buffer_get_PiM_addr (heap b),
             buffer_shape_vec :=
               bindings.map fun b => iree_hal_pim_buffer_get_PiM_dim (heap b),
             input_PIM_buffer := first,
             result_PIM_buffer := last } := by
  unfold iree_hal_vulkan_direct_command_buffer_push_descriptor_set
  rw [h0, hl]

/-- A successful `push_descriptor_set` records the last binding as the result
buffer. -/
lemma push_descriptor_set_result_buffer (heap : Heap) (cb cb' : CmdBuf)
    (bindings : List Nat)
    (h : iree_hal_vulkan_direct_command_buffer_push_descriptor_set heap cb
          bindings = some cb') :
    bindings[bindings.length - 1]? = some cb'.result_PIM_buffer := by
  unfold iree_hal_vulkan_direct_command_buffer_push_descriptor_set at h
  cases h0 : bindings[0]? with
  | none => rw [h0] at h; cases h
  | some first =>
    cases hl : bindings[bindings.length - 1]? with
    | none => rw [h0, hl] at h; cases h
    | some last =>
      rw [h0, hl] at h
      cases h
      rfl

/-! ## Claim theorems -/

/-- Claim C3: dispatching an executable whose code length is 0 makes no SDK
call, leaves every buffer and the captured binding state unchanged, and
returns success. -/
theorem dispatch_empty_code_is_noop
    (sdk_dispatch : List Int → Int → List (List Int) → Int × List Int)
    (heap : Heap) (cb : CmdBuf) (executable : NativeExecutable)
    (hcode : iree_hal_pim_executable_cmd_len executable = 0) :
    iree_hal_vulkan_direct_command_buffer_dispatch sdk_dispatch heap cb
      executable = ⟨none, cb, heap, Status.ok⟩ := by
  unfold iree_hal_vulkan_direct_command_buffer_dispatch
  rw [hcode]
  rfl

/-- Claim C3 witness: a concrete dispatch on an executable with an empty code
vector leaves a concrete heap and command buffer untouched. -/
theorem dispatch_empty_code_is_noop_witness :
    iree_hal_pim_executable_cmd_len ⟨[]⟩ = 0 ∧
    iree_hal_vulkan_direct_command_buffer_dispatch
      (fun _ _ _ => (7, [9])) (fun _ => ⟨0, 0, 0, 4, 0, 4, 5, [1], 1⟩)
      ⟨[5], [[1]], 0, 0⟩ ⟨[]⟩ =
      ⟨none, ⟨[5], [[1]], 0, 0⟩, fun _ => ⟨0, 0, 0, 4, 0, 4, 5, [1], 1⟩,
       Status.ok⟩ :=
  ⟨rfl, dispatch_empty_code_is_noop (fun _ _ _ => (7, [9]))
    (fun _ => ⟨0, 0, 0, 4, 0, 4, 5, [1], 1⟩) ⟨[5], [[1]], 0, 0⟩ ⟨[]⟩ rfl⟩

/-- Claim C5: the code contradicts the claim — at a wrap call whose host
allocation fails, `iree_hal_PIM_buffer_wrap` still returns `iree_ok_status()`
(the computed error status is discarded by the final `return`), and the
output-buffer pointer is left unwritten. -/
theorem wrap_alloc_failure_returns_ok_bug :
    iree_hal_PIM_buffer_wrap false 0 0 0 16 0 16 1 [1, 4] 2 =
      (none, Status.ok) := rfl

/-- Claim C7: the adjusted allocation size is a multiple of 4, a zero-size
request is adjusted to exactly 4, and the compatibility bitmask always
contains the allocatable bit. -/
theorem query_buffer_compatibility_props
    (params : BufferParams) (allocation_size : Nat) :
    4 ∣ (iree_hal_vulkan_vma_allocator_query_buffer_compatibility params
          allocation_size).2.1 ∧
    (allocation_size = 0 →
      (iree_hal_vulkan_vma_allocator_query_buffer_compatibility params
        allocation_size).2.1 = 4) ∧
    (iree_hal_vulkan_vma_allocator_query_buffer_compatibility params
        allocation_size).2.2 &&&
      IREE_HAL_BUFFER_COMPATIBILITY_ALLOCATABLE =
      IREE_HAL_BUFFER_COMPATIBILITY_ALLOCATABLE := by
  unfold iree_hal_vulkan_vma_allocator_query_buffer_compatibility
  refine ⟨?_, ?_, ?_⟩
  · exact Nat.dvd_mul_left 4 _
  · intro h
    rw [if_pos h]
    rfl
  · dsimp only
    split <;> split <;> (try split) <;> decide

/-- Claim C7 witness: a concrete zero-size query yields size 4 (a multiple of
4) and an allocatable-compatible mask. -/
theorem query_buffer_compatibility_props_witness :
    4 ∣ (iree_hal_vulkan_vma_allocator_query_buffer_compatibility
          ⟨0, 0, 0, [], 0⟩ 0).2.1 ∧
    (iree_hal_vulkan_vma_allocator_query_buffer_compatibility
        ⟨0, 0, 0, [], 0⟩ 0).2.1 = 4 ∧
    (iree_hal_vulkan_vma_allocator_query_buffer_compatibility
        ⟨0, 0, 0, [], 0⟩ 0).2.2 &&&
      IREE_HAL_BUFFER_COMPATIBILITY_ALLOCATABLE =
      IREE_HAL_BUFFER_COMPATIBILITY_ALLOCATABLE :=
  ⟨(query_buffer_compatibility_props ⟨0, 0, 0, [], 0⟩ 0).1,
   (query_buffer_compatibility_props ⟨0, 0, 0, [], 0⟩ 0).2.1 rfl,
   (query_buffer_compatibility_props ⟨0, 0, 0, [], 0⟩ 0).2.2⟩

/-- Claim C8: allocating with empty initial data passes element count
`allocation_size/4` and a zero-filled float array of that length to the SDK
alloc, and the resulting buffer's shape is the sentinel `[0, 0, 0]`. -/
theorem allocate_buffer_empty_initial_data_props
    (sdk_alloc : Nat → List Float → Int) (params : BufferParams)
    (allocation_size : Nat) :
    (iree_hal_PIM_allocator_allocate_buffer sdk_alloc true params
        allocation_size []).1.element_count = allocation_size / 4 ∧
    (iree_hal_PIM_allocator_allocate_buffer sdk_alloc true params
        allocation_size []).1.host_data =
      List.replicate (allocation_size / 4) (0.0 : Float) ∧
    ∃ buf,
      (iree_hal_PIM_allocator_allocate_buffer sdk_alloc true params
          allocation_size []).2.1 = some buf ∧
      iree_hal_pim_buffer_get_PiM_dim buf = [0, 0, 0] := by
  refine ⟨rfl, rfl, ?_⟩
  exact ⟨_, rfl, rfl⟩

/-- Claim C9: allocating with non-empty initial data, `tensor_shape = [a, b,
c]` and `tensor_rank = 3` yields a buffer whose shape is `[a, b, c]` and whose
stored rank equals the requested rank. -/
theorem allocate_buffer_shape_roundtrip
    (sdk_alloc : Nat → List Float → Int) (params : BufferParams)
    (allocation_size : Nat) (initial_data : List Float) (a b c : Int)
    (hdata : initial_data.isEmpty = false)
    (hshape : params.tensor_shape = [a, b, c])
    (hrank : params.tensor_rank = 3) :
    ∃ buf,
      (iree_hal_PIM_allocator_allocate_buffer sdk_alloc true params
          allocation_size initial_data).2.1 = some buf ∧
      iree_hal_pim_buffer_get_PiM_dim buf = [a, b, c] ∧
      buf.PIM_rank = (params.tensor_rank : Int) := by
  unfold iree_hal_PIM_allocator_allocate_buffer
  rw [hdata]
  refine ⟨_, rfl, ?_, ?_⟩
  · show (params.tensor_shape.take params.tensor_rank) = [a, b, c]
    rw [hshape, hrank]
    rfl
  · rfl

/-- Claim C9 witness: a concrete allocation with initial data `[1.5]` and
shape `[1, 2, 3]` round-trips the shape and rank. -/
theorem allocate_buffer_shape_roundtrip_witness :
    ∃ buf,
      (iree_hal_PIM_allocator_allocate_buffer (fun _ _ => 42) true
          ⟨0, 0, 0, [1, 2, 3], 3⟩ 4 [1.5]).2.1 = some buf ∧
      iree_hal_pim_buffer_get_PiM_dim buf = [1, 2, 3] ∧
      buf.PIM_rank = ((3 : Nat) : Int) :=
  allocate_buffer_shape_roundtrip (fun _ _ => 42) ⟨0, 0, 0, [1, 2, 3], 3⟩ 4
    [1.5] 1 2 3 rfl rfl rfl

/-- Claim C10: `push_descriptor_set` unconditionally reads `bindings[0]` and
`bindings[binding_count-1]`, so it is well-defined exactly under the
precondition `binding_count ≥ 1`: with at least one binding every
binding-array access is in bounds and the call produces a state, while an
empty binding table makes the initial reads go out of bounds. -/
theorem push_descriptor_set_requires_nonempty
    (heap : Heap) (cb : CmdBuf) (bindings : List Nat) :
    (1 ≤ bindings.length →
      (iree_hal_vulkan_direct_command_buffer_push_descriptor_set heap cb
        bindings).isSome = true) ∧
    (bindings.length = 0 →
      iree_hal_vulkan_direct_command_buffer_push_descriptor_set heap cb
        bindings = none) := by
  constructor
  · intro h
    cases bindings with
    | nil => simp at h
    | cons b bs =>
      rw [push_descriptor_set_eq_some heap cb (b :: bs) b
            ((b :: bs).getLast (by simp)) (by simp) ?_]
      · rfl
      · rw [← List.getLast?_eq_getElem?]
        exact List.getLast?_eq_getLast _ (by simp)
  · intro h
    rw [List.length_eq_zero.mp h]
    rfl

/-- Claim C10 witness: a one-binding table is accepted, the empty table is
rejected, on a concrete heap. -/
theorem push_descriptor_set_requires_nonempty_witness :
    (iree_hal_vulkan_direct_command_buffer_push_descriptor_set
        (fun _ => ⟨0, 0, 0, 4, 0, 4, 5, [1], 1⟩) ⟨[], [], 0, 0⟩
        [0]).isSome = true ∧
    iree_hal_vulkan_direct_command_buffer_push_descriptor_set
        (fun _ => ⟨0, 0, 0, 4, 0, 4, 5, [1], 1⟩) ⟨[], [], 0, 0⟩ [] = none :=
  ⟨(push_descriptor_set_requires_nonempty
      (fun _ => ⟨0, 0, 0, 4, 0, 4, 5, [1], 1⟩) ⟨[], [], 0, 0⟩ [0]).1
      (by decide),
   (push_descriptor_set_requires_nonempty
      (fun _ => ⟨0, 0, 0, 4, 0, 4, 5, [1], 1⟩) ⟨[], [], 0, 0⟩ []).2 rfl⟩

/-- Claim C1: after a push has captured a binding table, dispatching a
non-empty executable makes the SDK call with the captured handle and shape
vectors, then sets the output buffer's handle to the SDK-returned result
handle and its shape to the SDK-returned out-shape, returning success. -/
theorem dispatch_writes_sdk_result_to_output_buffer
    (sdk_dispatch : List Int → Int → List (List Int) → Int × List Int)
    (heap : Heap) (cb cb' : CmdBuf) (bindings : List Nat)
    (hpush : iree_hal_vulkan_direct_command_buffer_push_descriptor_set heap
      cb bindings = some cb')
    (executable : NativeExecutable)
    (hcode : 0 < iree_hal_pim_executable_cmd_len executable) :
    (iree_hal_vulkan_direct_command_buffer_dispatch sdk_dispatch heap cb'
        executable).status = Status.ok ∧
    (iree_hal_vulkan_direct_command_buffer_dispatch sdk_dispatch heap cb'
        executable).sdk_call =
      some ⟨cb'.buffer_addr_vec,
            toInt32 ((iree_hal_pim_executable_cmd_get executable).headD 0),
            cb'.buffer_shape_vec⟩ ∧
    ((iree_hal_vulkan_direct_command_buffer_dispatch sdk_dispatch heap cb'
        executable).heap cb'.result_PIM_buffer).PIM_addr =
      (sdk_dispatch cb'.buffer_addr_vec
        (toInt32 ((iree_hal_pim_executable_cmd_get executable).headD 0))
        cb'.buffer_shape_vec).1 ∧
    ((iree_hal_vulkan_direct_command_buffer_dispatch sdk_dispatch heap cb'
        executable).heap cb'.result_PIM_buffer).PIM_dim =
      (sdk_dispatch cb'.buffer_addr_vec
        (toInt32 ((iree_hal_pim_executable_cmd_get executable).headD 0))
        cb'.buffer_shape_vec).2 := by
  unfold iree_hal_vulkan_direct_command_buffer_dispatch
  rw [if_neg (Nat.pos_iff_ne_zero.mp hcode)]
  refine ⟨rfl, rfl, ?_, ?_⟩ <;>
    simp [heapPushAddr, heapPushDim, iree_hal_pim_buffer_push_PiM_addr,
      iree_hal_pim_buffer_push_PiM_dim]

/-- Claim C1 witness: a concrete push of one binding followed by a dispatch
of code `[1]` against an SDK returning handle 7 and shape `[9]` publishes 7
and `[9]` on the output buffer. -/
theorem dispatch_writes_sdk_result_to_output_buffer_witness :
    (iree_hal_vulkan_direct_command_buffer_dispatch (fun _ _ _ => (7, [9]))
        (fun x => ⟨0, 0, 0, 4, 0, 4, (x : Int), [(x : Int)], 1⟩)
        ⟨[0], [[0]], 0, 0⟩ ⟨[1]⟩).status = Status.ok ∧
    (iree_hal_vulkan_direct_command_buffer_dispatch (fun _ _ _ => (7, [9]))
        (fun x => ⟨0, 0, 0, 4, 0, 4, (x : Int), [(x : Int)], 1⟩)
        ⟨[0], [[0]], 0, 0⟩ ⟨[1]⟩).sdk_call =
      some ⟨[0], toInt32 ((iree_hal_pim_executable_cmd_get ⟨[1]⟩).headD 0),
            [[0]]⟩ ∧
    ((iree_hal_vulkan_direct_command_buffer_dispatch (fun _ _ _ => (7, [9]))
        (fun x => ⟨0, 0, 0, 4, 0, 4, (x : Int), [(x : Int)], 1⟩)
        ⟨[0], [[0]], 0, 0⟩ ⟨[1]⟩).heap 0).PIM_addr = 7 ∧
    ((iree_hal_vulkan_direct_command_buffer_dispatch (fun _ _ _ => (7, [9]))
        (fun x => ⟨0, 0, 0, 4, 0, 4, (x : Int), [(x : Int)], 1⟩)
        ⟨[0], [[0]], 0, 0⟩ ⟨[1]⟩).heap 0).PIM_dim = [9] :=
  dispatch_writes_sdk_result_to_output_buffer (fun _ _ _ => (7, [9]))
    (fun x => ⟨0, 0, 0, 4, 0, 4, (x : Int), [(x : Int)], 1⟩)
    ⟨[], [], 0, 0⟩ ⟨[0], [[0]], 0, 0⟩ [0] (by decide) ⟨[1]⟩ (by decide)

/-- Claim C2 counterexample: with first code word `2^32` the SDK's `int`
parameter receives 0, not the full 64-bit value — `PIM_dispatch_code` takes
`int op_type`, so the `uint64_t` code word is truncated. -/
theorem dispatch_op_code_truncation_cex :
    iree_hal_pim_executable_cmd_get (⟨[2 ^ 32]⟩ : NativeExecutable) =
      [2 ^ 32] ∧
    (iree_hal_vulkan_direct_command_buffer_dispatch
        (fun _ op _ => (op, []))
        (fun x => ⟨0, 0, 0, 4, 0, 4, (x : Int), [(x : Int)], 1⟩)
        ⟨[5], [[1]], 0, 0⟩ ⟨[2 ^ 32]⟩).sdk_call =
      some ⟨[5], 0, [[1]]⟩ ∧
    (0 : Int) ≠ ((2 ^ 32 : Nat) : Int) := by
  refine ⟨rfl, by decide, by decide⟩

/-- Claim C2 (amended): the operator-code value received by the SDK dispatch
entry point is the first 64-bit code word converted to the SDK's 32-bit `int`
parameter (two's-complement truncation); the conversion is the identity
exactly on words below `2^31`. -/
theorem dispatch_op_code_is_int32_truncation
    (sdk_dispatch : List Int → Int → List (List Int) → Int × List Int)
    (heap : Heap) (cb : CmdBuf) (executable : NativeExecutable)
    (hcode : 0 < iree_hal_pim_executable_cmd_len executable) :
    (iree_hal_vulkan_direct_command_buffer_dispatch sdk_dispatch heap cb
        executable).sdk_call =
      some ⟨cb.buffer_addr_vec,
            toInt32 ((iree_hal_pim_executable_cmd_get executable).headD 0),
            cb.buffer_shape_vec⟩ ∧
    (∀ w : Nat, w < 2 ^ 31 → toInt32 w = (w : Int)) := by
  constructor
  · unfold iree_hal_vulkan_direct_command_buffer_dispatch
    rw [if_neg (Nat.pos_iff_ne_zero.mp hcode)]
  · intro w hw
    unfold toInt32
    rw [Nat.mod_eq_of_lt (lt_trans hw (by norm_num))]
    rw [if_pos hw]

/-- Claim C2 (amended) witness: a concrete dispatch of code word `2^32 + 3`
hands the SDK the truncated value 3. -/
theorem dispatch_op_code_is_int32_truncation_witness :
    (iree_hal_vulkan_direct_command_buffer_dispatch (fun _ op _ => (op, []))
        (fun x => ⟨0, 0, 0, 4, 0, 4, (x : Int), [(x : Int)], 1⟩)
        ⟨[5], [[1]], 0, 0⟩ ⟨[2 ^ 32 + 3]⟩).sdk_call =
      some ⟨[5],
            toInt32 ((iree_hal_pim_executable_cmd_get ⟨[2 ^ 32 + 3]⟩).headD 0),
            [[1]]⟩ ∧
    toInt32 (2 ^ 32 + 3) = 3 :=
  ⟨(dispatch_op_code_is_int32_truncation (fun _ op _ => (op, []))
      (fun x => ⟨0, 0, 0, 4, 0, 4, (x : Int), [(x : Int)], 1⟩)
      ⟨[5], [[1]], 0, 0⟩ ⟨[2 ^ 32 + 3]⟩ (by decide)).1,
   by decide⟩

/-- Claim C4 counterexample: when the two pushes name the same output buffer
(buffer 0 here), the dispatch after the second push does mutate the first
call's output buffer — its handle goes from 0 to the SDK result 7. -/
theorem repush_same_output_buffer_mutated_cex :
    iree_hal_vulkan_direct_command_buffer_push_descriptor_set
        (fun x => ⟨0, 0, 0, 4, 0, 4, (x : Int), [(x : Int)], 1⟩)
        ⟨[], [], 0, 0⟩ [0] = some ⟨[0], [[0]], 0, 0⟩ ∧
    iree_hal_vulkan_direct_command_buffer_push_descriptor_set
        (fun x => ⟨0, 0, 0, 4, 0, 4, (x : Int), [(x : Int)], 1⟩)
        ⟨[0], [[0]], 0, 0⟩ [0] = some ⟨[0], [[0]], 0, 0⟩ ∧
    ((iree_hal_vulkan_direct_command_buffer_dispatch (fun _ _ _ => (7, [9]))
        (fun x => ⟨0, 0, 0, 4, 0, 4, (x : Int), [(x : Int)], 1⟩)
        ⟨[0], [[0]], 0, 0⟩ ⟨[1]⟩).heap 0).PIM_addr = 7 ∧
    ((fun x => (⟨0, 0, 0, 4, 0, 4, (x : Int), [(x : Int)], 1⟩ : PimBuffer))
        0).PIM_addr = 0 := by
  refine ⟨by decide, by decide, by decide, by decide⟩

/-- Claim C4 (amended): after two successive pushes, the recorded state is
exactly the one a single push of the second binding table would produce
(nothing from the first push survives), the mutated output buffer is the
second table's last binding, and dispatch leaves every other buffer — in
particular the first call's output buffer whenever it is distinct from the
second call's — unchanged. -/
theorem repush_resets_bindings_amended
    (sdk_dispatch : List Int → Int → List (List Int) → Int × List Int)
    (heap : Heap) (cb cb1 cb2 : CmdBuf) (b1 b2 : List Nat)
    (executable : NativeExecutable)
    (h1 : iree_hal_vulkan_direct_command_buffer_push_descriptor_set heap cb
      b1 = some cb1)
    (h2 : iree_hal_vulkan_direct_command_buffer_push_descriptor_set heap cb1
      b2 = some cb2) :
    iree_hal_vulkan_direct_command_buffer_push_descriptor_set heap cb b2 =
      some cb2 ∧
    b2[b2.length - 1]? = some cb2.result_PIM_buffer ∧
    ∀ x, x ≠ cb2.result_PIM_buffer →
      (iree_hal_vulkan_direct_command_buffer_dispatch sdk_dispatch heap cb2
        executable).heap x = heap x := by
  refine ⟨h2, push_descriptor_set_result_buffer heap cb1 cb2 b2 h2, ?_⟩
  intro x hx
  unfold iree_hal_vulkan_direct_command_buffer_dispatch
  by_cases hc : iree_hal_pim_executable_cmd_len executable = 0
  · simp [hc]
  · simp [hc, heapPushAddr, heapPushDim, hx]

/-- Claim C4 (amended) witness: pushes of `[0, 1]` then `[0, 2]` followed by
one dispatch leave buffer 1 — the first call's output buffer — unchanged. -/
theorem repush_resets_bindings_amended_witness :
    iree_hal_vulkan_direct_command_buffer_push_descriptor_set
        (fun x => ⟨0, 0, 0, 4, 0, 4, (x : Int), [(x : Int)], 1⟩)
        ⟨[], [], 0, 0⟩ [0, 2] = some ⟨[0, 2], [[0], [2]], 0, 2⟩ ∧
    (iree_hal_vulkan_direct_command_buffer_dispatch (fun _ _ _ => (7, [9]))
        (fun x => ⟨0, 0, 0, 4, 0, 4, (x : Int), [(x : Int)], 1⟩)
        ⟨[0, 2], [[0], [2]], 0, 2⟩ ⟨[1]⟩).heap 1 =
      (fun x => (⟨0, 0, 0, 4, 0, 4, (x : Int), [(x : Int)], 1⟩ : PimBuffer))
        1 :=
  have T := repush_resets_bindings_amended (fun _ _ _ => (7, [9]))
    (fun x => ⟨0, 0, 0, 4, 0, 4, (x : Int), [(x : Int)], 1⟩)
    ⟨[], [], 0, 0⟩ ⟨[0, 1], [[0], [1]], 0, 1⟩ ⟨[0, 2], [[0], [2]], 0, 2⟩
    [0, 1] [0, 2] ⟨[1]⟩ (by decide) (by decide)
  ⟨T.1, T.2.2 1 (by decide)⟩

/-- Claim C6: creating an executable fails with failed-precondition when the
entry-point count differs from the pipeline-layout count, with
invalid-argument when the container is smaller than 16 bytes or an entry-point
name is empty, and accepts a container whose code vector is empty but is
otherwise valid. -/
theorem executable_create_verification (fb : FlatbufferData)
    (expected : Nat) :
    (fb.data_length < 16 →
      (iree_hal_vulkan_native_executable_create true fb expected).2 =
        Status.invalidArgument) ∧
    (fb.data_present = true → 16 ≤ fb.data_length →
      fb.root_verify_ok = true → fb.root.entry_points.length ≠ expected →
      (iree_hal_vulkan_native_executable_create true fb expected).2 =
        Status.failedPrecondition) ∧
    (fb.data_present = true → 16 ≤ fb.data_length →
      fb.root_verify_ok = true → fb.root.entry_points.length = expected →
      fb.root.entry_points.any (fun s => s.length = 0) = true →
      (iree_hal_vulkan_native_executable_create true fb expected).2 =
        Status.invalidArgument) ∧
    (fb.data_present = true → 16 ≤ fb.data_length →
      fb.root_verify_ok = true → fb.root.entry_points.length = expected →
      fb.root.entry_points.any (fun s => s.length = 0) = false →
      fb.root.code = [] →
      (iree_hal_vulkan_native_executable_create true fb expected).2 =
        Status.ok ∧
      (iree_hal_vulkan_native_executable_create true fb expected).1 =
        some ⟨[]⟩) := by
  refine ⟨?_, ?_, ?_, ?_⟩
  · intro hlen
    simp [iree_hal_vulkan_native_executable_create,
      iree_hal_pim_executable_flatbuffer_verify, hlen]
  · intro hp hlen hver hcount
    have hnl : ¬fb.data_length < 16 := not_lt.mpr hlen
    simp [iree_hal_vulkan_native_executable_create,
      iree_hal_pim_executable_flatbuffer_verify, hp, hver, hnl, hcount]
  · intro hp hlen hver hcount hname
    have hnl : ¬fb.data_length < 16 := not_lt.mpr hlen
    simp [iree_hal_vulkan_native_executable_create,
      iree_hal_pim_executable_flatbuffer_verify, hp, hver, hnl, hcount,
      hname]
  · intro hp hlen hver hcount hname hcode
    have hnl : ¬fb.data_length < 16 := not_lt.mpr hlen
    simp [iree_hal_vulkan_native_executable_create,
      iree_hal_pim_executable_flatbuffer_verify, hp, hver, hnl, hcount,
      hname, hcode]

/-- Claim C6 witness: concrete containers exercising the four verification
outcomes, including acceptance of an empty code vector. -/
theorem executable_create_verification_witness :
    (iree_hal_vulkan_native_executable_create true
        ⟨true, 8, true, ⟨["main"], []⟩⟩ 1).2 = Status.invalidArgument ∧
    (iree_hal_vulkan_native_executable_create true
        ⟨true, 32, true, ⟨["a", "b"], []⟩⟩ 1).2 =
      Status.failedPrecondition ∧
    (iree_hal_vulkan_native_executable_create true
        ⟨true, 32, true, ⟨["", "b"], []⟩⟩ 2).2 = Status.invalidArgument ∧
    (iree_hal_vulkan_native_executable_create true
        ⟨true, 32, true, ⟨["main"], []⟩⟩ 1).2 = Status.ok ∧
    (iree_hal_vulkan_native_executable_create true
        ⟨true, 32, true, ⟨["main"], []⟩⟩ 1).1 = some ⟨[]⟩ :=
  have hd := (executable_create_verification
      ⟨true, 32, true, ⟨["main"], []⟩⟩ 1).2.2.2 rfl (by decide) rfl rfl
      (by decide) rfl
  ⟨(executable_create_verification ⟨true, 8, true, ⟨["main"], []⟩⟩ 1).1
      (by decide),
   (executable_create_verification ⟨true, 32, true, ⟨["a", "b"], []⟩⟩ 1).2.1
      rfl (by decide) rfl (by decide),
   (executable_create_verification ⟨true, 32, true, ⟨["", "b"], []⟩⟩ 2).2.2.1
      rfl (by decide) rfl rfl (by decide),
   hd.1, hd.2⟩

end PIMHal
